import Mathlib

/- Shallow embedding of the coordinate-mapping and template-cache pipeline of the
   POC-PDF repository (src/app.py, src/main.py, src/database.py).  Floating-point
   page coordinates and backend distances are modelled as rationals: every claim
   below concerns control flow, equality tests and order comparisons on values
   that are copied around unchanged, not rounding behaviour. -/

/-- A positioned word as produced by pdfplumber extract_words
    (src/main.py lines 104-112): {text, x0, top, x1, bottom}. -/
structure Palavra where
  text : String
  x0 : ℚ
  top : ℚ
  x1 : ℚ
  bottom : ℚ
deriving DecidableEq

/-- A candidate field proposed by the LLM: {valor_original, tipo, descricao}.
    The Python code reads these with dict.get and defaults; the model takes the
    fields as present, which is how every caller in the repository builds them. -/
structure Variavel where
  valor_original : String
  tipo : String
  descricao : String
deriving DecidableEq

/-- The resolved mapping dict {tipo, descricao, texto_original, x0, top, x1, bottom}
    emitted by the span matcher and persisted by salvar_template. -/
structure Mapeamento where
  tipo : String
  descricao : String
  texto_original : String
  x0 : ℚ
  top : ℚ
  x1 : ℚ
  bottom : ℚ
deriving DecidableEq

/-- The coords accumulator dict of mapear_variaveis_para_coordenadas. -/
structure Coords where
  x0 : ℚ
  top : ℚ
  x1 : ℚ
  bottom : ℚ
deriving DecidableEq

/-- Whitespace as Python str.split() and the regex class \s see it (ASCII range). -/
def espacoPython (c : Char) : Bool :=
  c = ' ' || c = '\t' || c = '\n' || c = '\r' || c = '\x0b' || c = '\x0c'

/-- Helper for splitPython: splits a character list at whitespace, accumulating
    the current (reversed) token; empty tokens are never produced. -/
def splitPythonAux : List Char → List Char → List (List Char)
  | [], acc => if acc = [] then [] else [acc.reverse]
  | c :: cs, acc =>
    if espacoPython c then
      if acc = [] then splitPythonAux cs [] else acc.reverse :: splitPythonAux cs []
    else
      splitPythonAux cs (c :: acc)

/-- Python texto.split() with no argument: split on whitespace runs, dropping
    empty pieces. -/
def splitPython (s : String) : List String :=
  (splitPythonAux s.toList []).map (fun l => ⟨l⟩)

/-- One step of the coords update in the token-extension loop
    (src/app.py lines 355-356): x1 follows the newly matched word, bottom is the
    running maximum. -/
def atualizaCaixa (c : Coords) (p : Palavra) : Coords :=
  { c with x1 := p.x1, bottom := max c.bottom p.bottom }

/-- Inner loop of mapear_variaveis_para_coordenadas (src/app.py lines 352-358):
    after the anchor word, each remaining token must equal the next word's text
    exactly (`palavras[i + j]["text"] == palavra_busca`, with the index-in-range
    check folded into the list recursion).  Returns none as soon as a token
    mismatches or the words run out (match = False in the Python). -/
def estender : List Palavra → List String → Coords → Option Coords
  | _, [], c => some c
  | [], _ :: _, _ => none
  | w :: ws, t :: ts, c =>
    if w.text = t then estender ws ts (atualizaCaixa c w) else none

/-- Outer anchor scan of mapear_variaveis_para_coordenadas (src/app.py lines
    345-368): walk the word list left to right; at each word whose text equals the
    first token try the full extension; on success emit and stop; on failure keep
    scanning later anchors (the Python `break` sits inside the
    `if match or len(palavras_busca) == 1` block, and that guard is equivalent to
    `match` alone, because a single-token candidate leaves `match` True). -/
def procurarExato (t0 : String) (resto : List String) : List Palavra → Option Coords
  | [] => none
  | w :: ws =>
    if w.text = t0 then
      match estender ws resto { x0 := w.x0, top := w.top, x1 := w.x1, bottom := w.bottom } with
      | some c => some c
      | none => procurarExato t0 resto ws
    else
      procurarExato t0 resto ws

/-- needle is a prefix of hay (character lists). -/
def ehPrefixo : List Char → List Char → Bool
  | [], _ => true
  | _ :: _, [] => false
  | a :: as, b :: bs => a = b && ehPrefixo as bs

/-- Substring containment on character lists (Python `needle in hay`). -/
def ocorreEm (needle : List Char) : List Char → Bool
  | [] => ehPrefixo needle []
  | c :: cs => ehPrefixo needle (c :: cs) || ocorreEm needle cs

/-- Python `needle in hay` for strings. -/
def strContem (needle hay : String) : Bool :=
  ocorreEm needle.toList hay.toList

/-- Fallback for single-token candidates with no exact anchor (src/app.py lines
    371-383): the first word whose text contains the token as a substring or is
    contained in it gives its own box. -/
def buscaParcial (t0 : String) : List Palavra → Option Coords
  | [] => none
  | w :: ws =>
    if strContem t0 w.text || strContem w.text t0 then
      some { x0 := w.x0, top := w.top, x1 := w.x1, bottom := w.bottom }
    else
      buscaParcial t0 ws

/-- Per-candidate body of mapear_variaveis_para_coordenadas (src/app.py lines
    337-383): split the original value on whitespace, skip empty candidates, try
    the exact anchor scan, then (single-token only) the substring fallback. -/
def mapearVariavel (palavras : List Palavra) (v : Variavel) : Option Mapeamento :=
  match splitPython v.valor_original with
  | [] => none
  | t0 :: resto =>
    let emitir : Coords → Mapeamento := fun c =>
      { tipo := v.tipo, descricao := v.descricao, texto_original := v.valor_original,
        x0 := c.x0, top := c.top, x1 := c.x1, bottom := c.bottom }
    match procurarExato t0 resto palavras with
    | some c => some (emitir c)
    | none =>
      if resto = [] then (buscaParcial t0 palavras).map emitir
      else none

/-- mapear_variaveis_para_coordenadas (src/app.py lines 330-390; the copy in
    src/main.py lines 199-262 is identical except that it lacks the buscaParcial
    fallback, which the exact-path theorems below never enter): candidates are
    processed in order and unmatched ones dropped silently. -/
def mapear_variaveis_para_coordenadas (variaveis : List Variavel) (palavras : List Palavra) :
    List Mapeamento :=
  variaveis.filterMap (mapearVariavel palavras)

/-- Specification-side predicate: the token sequence busca matches the texts of
    the first busca.length words of ws, position by position. -/
def textosCasam : List Palavra → List String → Bool
  | _, [] => true
  | [], _ :: _ => false
  | w :: ws, t :: ts => w.text == t && textosCasam ws ts

/-- Specification-side search: the least index at which the full token sequence
    matches, or none. -/
def primeiroCasamento (busca : List String) : List Palavra → Option Nat
  | [] => none
  | w :: ws =>
    if textosCasam (w :: ws) busca then some 0
    else (primeiroCasamento busca ws).map (· + 1)

/-- Specification-side box of a match: x0/top of the first word, x1 of the last of
    the first busca.length words, bottom their running maximum. -/
def caixaDe : List Palavra → List String → Option Coords
  | w :: ws, _ :: ts =>
    some ((ws.take ts.length).foldl atualizaCaixa
      { x0 := w.x0, top := w.top, x1 := w.x1, bottom := w.bottom })
  | _, _ => none

/-- ASCII decimal digit: the regex class \d on the texts this repository handles. -/
def ehDigito (c : Char) : Bool := '0' ≤ c && c ≤ '9'

/-- re.sub(r'\d+', '', texto) from calcular_hash_documento (src/main.py line 68,
    src/app.py line 233): with an empty replacement, deleting every maximal digit
    run is the same as deleting every digit character. -/
def removerDigitos (l : List Char) : List Char := l.filter (fun c => !ehDigito c)

/-- The character class [\d.,] of the currency pattern. -/
def ehMoedaChar (c : Char) : Bool := ehDigito c || c = '.' || c = ','

/-- Match the regex R\$\s*[\d.,]+ at the head of the list; on success return the
    unconsumed remainder.  Greedy maximal runs for \s* and [\d.,]+ are forced:
    the two classes are disjoint, so backtracking can never rescue a match. -/
def casarMoeda : List Char → Option (List Char)
  | 'R' :: '$' :: rest =>
    let depois := rest.dropWhile espacoPython
    if depois.takeWhile ehMoedaChar = [] then none
    else some (depois.dropWhile ehMoedaChar)
  | _ => none

/-- One full re.sub pass: at each position try the pattern matcher (which returns
    the remainder after a match); on a match emit the replacement and continue
    scanning AFTER the match (replacements are never rescanned, as in Python re),
    otherwise keep the character and advance one position.  Fuel bounds the
    recursion; every matcher used below consumes at least one character per
    match, so fuel = input length never runs out. -/
def reSub (casar : List Char → Option (List Char)) (subst : List Char) :
    Nat → List Char → List Char
  | 0, l => l
  | _ + 1, [] => []
  | fuel + 1, c :: cs =>
    match casar (c :: cs) with
    | some rest => subst ++ reSub casar subst fuel rest
    | none => c :: reSub casar subst fuel cs

/-- re.sub over a whole list, with length fuel. -/
def reSubTudo (casar : List Char → Option (List Char)) (subst : List Char)
    (l : List Char) : List Char :=
  reSub casar subst l.length l

/-- The text normalization inside calcular_hash_documento (src/main.py lines
    57-71; src/app.py lines 217-246 is byte-identical on this part): strip every
    digit run, then every currency pattern, in that order.  The function then
    md5-hashes this skeleton and keeps 16 hex characters; the hash is a fixed
    pure function of this string, so fingerprint equality claims are stated on
    the skeleton (equal skeletons give equal hashes; the counterexample below
    exhibits distinct skeletons, which md5 maps to distinct digests). -/
def esqueletoHash (texto : String) : String :=
  ⟨reSubTudo casarMoeda [] (removerDigitos texto.toList)⟩

/-- Text assembled by interleaving a fixed skeleton with variable slots:
    s0 ++ v1 ++ s1 ++ v2 ++ ... — the formal reading of two texts "differing only
    in" the contents of the vi slots. -/
def intercalar : List (List Char) → List (List Char) → List Char
  | [], vs => vs.flatten
  | s :: ss, [] => s ++ intercalar ss []
  | s :: ss, v :: vs => s ++ v ++ intercalar ss vs

/-- Match \d+ at the head (for the NUM rule of the embedding normalization). -/
def casarDigitos : List Char → Option (List Char)
  | c :: cs => if ehDigito c then some (cs.dropWhile ehDigito) else none
  | [] => none

/-- The separator class [/.-] of the date pattern. -/
def ehSepData (c : Char) : Bool := c = '/' || c = '.' || c = '-'

/-- Match \d{1,2}[/.-]\d{1,2}[/.-]\d{2,4} at the head.  Digits and the separator
    class are disjoint, so the greedy bounded repetitions admit no effective
    backtracking: each \d{1,2} must swallow a complete digit run of length 1 or 2
    (a longer run leaves a digit where the separator is required, whichever
    shorter prefix is tried), and the final greedy \d{2,4} takes min(4, run) of a
    run of length at least 2. -/
def casarData (l : List Char) : Option (List Char) :=
  let r1 := l.takeWhile ehDigito
  if r1.length = 0 || r1.length > 2 then none
  else
    match l.drop r1.length with
    | s1 :: resto1 =>
      if ehSepData s1 then
        let r2 := resto1.takeWhile ehDigito
        if r2.length = 0 || r2.length > 2 then none
        else
          match resto1.drop r2.length with
          | s2 :: resto2 =>
            if ehSepData s2 then
              let r3 := resto2.takeWhile ehDigito
              if r3.length < 2 then none
              else some (resto2.drop (min r3.length 4))
            else none
          | [] => none
      else none
    | [] => none

/-- The optional separator class [.\s] of the CPF/CNPJ patterns. -/
def ehSepCpf (c : Char) : Bool := c = '.' || espacoPython c

/-- The optional separator class [-.\s]. -/
def ehSepTraco (c : Char) : Bool := c = '-' || c = '.' || espacoPython c

/-- The optional separator class [/.\s] of the CNPJ pattern. -/
def ehSepBarra (c : Char) : Bool := c = '/' || c = '.' || espacoPython c

/-- Consume exactly n characters satisfying p. -/
def consumirExatos (p : Char → Bool) : Nat → List Char → Option (List Char)
  | 0, l => some l
  | n + 1, c :: cs => if p c then consumirExatos p n cs else none
  | _ + 1, [] => none

/-- Consume an optional separator (a class? in the regex).  Every use below has
    the separator class disjoint from \d, which follows it, so greedily taking a
    present separator is exactly Python's backtracking behaviour: if taking it
    fails, the empty alternative faces the separator character where a digit is
    required and fails too. -/
def consumirSepOpcional (p : Char → Bool) : List Char → List Char
  | [] => []
  | c :: cs => if p c then cs else c :: cs

/-- Match \d{3}[.\s]?\d{3}[.\s]?\d{3}[-.\s]?\d{2} (the CPF rule) at the head. -/
def casarCpf (l : List Char) : Option (List Char) := do
  let l ← consumirExatos ehDigito 3 l
  let l := consumirSepOpcional ehSepCpf l
  let l ← consumirExatos ehDigito 3 l
  let l := consumirSepOpcional ehSepCpf l
  let l ← consumirExatos ehDigito 3 l
  let l := consumirSepOpcional ehSepTraco l
  consumirExatos ehDigito 2 l

/-- Match \d{2}[.\s]?\d{3}[.\s]?\d{3}[/.\s]?\d{4}[-.\s]?\d{2} (the CNPJ rule). -/
def casarCnpj (l : List Char) : Option (List Char) := do
  let l ← consumirExatos ehDigito 2 l
  let l := consumirSepOpcional ehSepCpf l
  let l ← consumirExatos ehDigito 3 l
  let l := consumirSepOpcional ehSepCpf l
  let l ← consumirExatos ehDigito 3 l
  let l := consumirSepOpcional ehSepBarra l
  let l ← consumirExatos ehDigito 4 l
  let l := consumirSepOpcional ehSepTraco l
  consumirExatos ehDigito 2 l

/-- The regex class \w restricted to ASCII, which covers the repository's texts. -/
def ehLetraPalavra (c : Char) : Bool :=
  ('a' ≤ c && c ≤ 'z') || ('A' ≤ c && c ≤ 'Z') || ehDigito c || c = '_'

/-- The character class [\w.-] of the email pattern. -/
def ehEmailChar (c : Char) : Bool := ehLetraPalavra c || c = '.' || c = '-'

/-- Greedy split point for the email tail: the LAST position m ≥ 1 inside the
    post-@ run with a '.' at m and a word character at m + 1 (the backtracking of
    the greedy middle [\w.-]+ tries the longest prefix first). -/
def ultimaPosPontoPalavra (l : List Char) : Option Nat :=
  ((List.range l.length).filter (fun m =>
    decide (1 ≤ m) && (l.get? m == some '.') &&
      ((l.get? (m + 1)).map ehLetraPalavra).getD false)).getLast?

/-- Match [\w.-]+@[\w.-]+\.\w+ (the email rule) at the head.  '@' is not in the
    class [\w.-], so the first greedy run is forced maximal; the tail \.\w+ must
    fall inside the maximal post-@ run (both '.' and word characters belong to
    [\w.-]), at the last admissible '.', followed by the maximal word run. -/
def casarEmail (l : List Char) : Option (List Char) :=
  let corpo1 := l.takeWhile ehEmailChar
  if corpo1 = [] then none
  else
    match l.drop corpo1.length with
    | '@' :: resto =>
      let corpo2 := resto.takeWhile ehEmailChar
      let alem := resto.drop corpo2.length
      match ultimaPosPontoPalavra corpo2 with
      | some m => some (((corpo2.drop (m + 1)).dropWhile ehLetraPalavra) ++ alem)
      | none => none
    | _ => none

/-- Tail of the phone pattern \d{n1}[-.\s]?\d{4} for a fixed first-run length. -/
def casarTelefoneCauda (n1 : Nat) (l : List Char) : Option (List Char) := do
  let l ← consumirExatos ehDigito n1 l
  let l := consumirSepOpcional ehSepTraco l
  consumirExatos ehDigito 4 l

/-- Match \(?\d{2}\)?\s*\d{4,5}[-.\s]?\d{4} (the phone rule) at the head.  The
    optional parentheses and the \s* run are forced greedy (classes disjoint from
    the digits that follow); the greedy \d{4,5} genuinely backtracks, trying five
    digits first and then four. -/
def casarTelefone (l : List Char) : Option (List Char) := do
  let l := match l with | '(' :: cs => cs | outro => outro
  let l ← consumirExatos ehDigito 2 l
  let l := match l with | ')' :: cs => cs | outro => outro
  let l := l.dropWhile espacoPython
  match casarTelefoneCauda 5 l with
  | some r => some r
  | none => casarTelefoneCauda 4 l

/-- Match \s+ at the head (the whitespace-collapse rule). -/
def casarEspacos : List Char → Option (List Char)
  | c :: cs => if espacoPython c then some (cs.dropWhile espacoPython) else none
  | [] => none

/-- Python texto.strip(). -/
def stripPython (l : List Char) : List Char :=
  ((l.dropWhile espacoPython).reverse.dropWhile espacoPython).reverse

/-- normalizar_texto_para_embedding (src/database.py lines 340-369), the exact
    substitution chain in program order: digit runs to NUM FIRST, then currency,
    dates, CPF, CNPJ, emails, phones, then whitespace collapse, strip and
    lower-case.  Because the digit rule runs first, its output contains no digit
    characters, and every later rule except the email one requires a digit. -/
def normalizar_texto_para_embedding (texto : String) : String :=
  let l := texto.toList
  let l := reSubTudo casarDigitos " NUM ".toList l
  let l := reSubTudo casarMoeda " VALOR ".toList l
  let l := reSubTudo casarData " DATA ".toList l
  let l := reSubTudo casarCpf " CPF ".toList l
  let l := reSubTudo casarCnpj " CNPJ ".toList l
  let l := reSubTudo casarEmail " EMAIL ".toList l
  let l := reSubTudo casarTelefone " TELEFONE ".toList l
  let l := reSubTudo casarEspacos " ".toList l
  ⟨(stripPython l).map Char.toLower⟩

/-- A row of the templates table (src/database.py lines 65-75).  The two
    timestamp columns are not modelled: no claim mentions them and no code path
    reads them back except for display ordering in listar_templates. -/
structure TemplateRow where
  id : Nat
  hash : String
  nome : Option String
  descricao : Option String
  num_campos : Nat
deriving DecidableEq

/-- A row of the mapeamentos table (src/database.py lines 78-91). -/
structure MapRow where
  template_id : Nat
  tipo : String
  descricao : String
  texto_original : String
  x0 : ℚ
  top : ℚ
  x1 : ℚ
  bottom : ℚ
deriving DecidableEq

/-- The SQLite store: rows in rowid (= insertion) order, the AUTOINCREMENT
    counter for templates, and whether criar_tabelas has ever run on this file. -/
structure BancoDados where
  tabelas_criadas : Bool
  templates : List TemplateRow
  mapeamentos : List MapRow
  proximo_id : Nat
deriving DecidableEq

/-- A fresh store: the database file exists but no table was ever created
    (the state before any operation that calls criar_tabelas has run). -/
def BancoDados.vazio : BancoDados :=
  { tabelas_criadas := false, templates := [], mapeamentos := [], proximo_id := 1 }

/-- criar_tabelas (src/database.py lines 59-99): CREATE TABLE IF NOT EXISTS for
    both tables; existing rows are untouched. -/
def criar_tabelas (db : BancoDados) : BancoDados := { db with tabelas_criadas := true }

/-- SELECT id FROM templates WHERE hash = ? ... fetchone(): first row in rowid
    order; raises sqlite3.OperationalError when the table does not exist. -/
def selecionarTemplate (db : BancoDados) (doc_hash : String) :
    Except String (Option TemplateRow) :=
  if db.tabelas_criadas then .ok (db.templates.find? (fun t => t.hash == doc_hash))
  else .error "no such table: templates"

/-- SQL COALESCE(?, coluna): the new value where non-null, else the old one. -/
def coalesce (novo velho : Option String) : Option String :=
  match novo with
  | some v => some v
  | none => velho

/-- Row-level effect of the UPDATE templates statement on one row. -/
def linhaAtualizada (tid : Nat) (nome descricao : Option String) (n : Nat)
    (t : TemplateRow) : TemplateRow :=
  if t.id = tid then
    { t with nome := coalesce nome t.nome, descricao := coalesce descricao t.descricao,
             num_campos := n }
  else t

/-- Effect of the UPDATE templates statement (src/database.py lines 133-140). -/
def atualizarTemplate (tid : Nat) (nome descricao : Option String) (n : Nat)
    (db : BancoDados) : BancoDados :=
  { db with templates := db.templates.map (linhaAtualizada tid nome descricao n) }

/-- Effect of DELETE FROM mapeamentos WHERE template_id = ? (line 143). -/
def removerMapeamentosDe (tid : Nat) (db : BancoDados) : BancoDados :=
  { db with mapeamentos := db.mapeamentos.filter (fun m => m.template_id != tid) }

/-- Effect of INSERT INTO templates (hash, nome, descricao, num_campos)
    (lines 147-152): the new row takes the AUTOINCREMENT id (cursor.lastrowid). -/
def inserirTemplate (doc_hash : String) (nome descricao : Option String) (n : Nat)
    (db : BancoDados) : BancoDados :=
  { db with
      templates := db.templates ++
        [{ id := db.proximo_id, hash := doc_hash, nome := nome, descricao := descricao,
           num_campos := n }],
      proximo_id := db.proximo_id + 1 }

/-- The mapeamentos row inserted for one mapping dict (the dict.get defaults
    collapse to plain field access because every caller passes all seven keys). -/
def linhaDe (tid : Nat) (m : Mapeamento) : MapRow :=
  { template_id := tid, tipo := m.tipo, descricao := m.descricao,
    texto_original := m.texto_original, x0 := m.x0, top := m.top, x1 := m.x1,
    bottom := m.bottom }

/-- The mapping dict rebuilt from a mapeamentos row by carregar_template
    (src/database.py lines 212-222). -/
def mapDeLinha (r : MapRow) : Mapeamento :=
  { tipo := r.tipo, descricao := r.descricao, texto_original := r.texto_original,
    x0 := r.x0, top := r.top, x1 := r.x1, bottom := r.bottom }

/-- Effect of one INSERT INTO mapeamentos (lines 155-168). -/
def inserirMapeamento (tid : Nat) (m : Mapeamento) (db : BancoDados) : BancoDados :=
  { db with mapeamentos := db.mapeamentos ++ [linhaDe tid m] }

/-- The DML statements of salvar_template's try block in program order
    (src/database.py lines 124-168), chosen by the initial SELECT's result:
    update-then-purge for an existing template, a fresh INSERT otherwise,
    followed by one INSERT per mapping.  Also returns the template id the
    function will report. -/
def planoSalvar (doc_hash : String) (maps : List Mapeamento) (nome descricao : Option String)
    (proximo : Nat) (existente : Option TemplateRow) :
    Nat × List (BancoDados → BancoDados) :=
  match existente with
  | some t =>
    (t.id, [atualizarTemplate t.id nome descricao maps.length, removerMapeamentosDe t.id]
      ++ maps.map (fun m => inserirMapeamento t.id m))
  | none =>
    (proximo, [inserirTemplate doc_hash nome descricao maps.length]
      ++ maps.map (fun m => inserirMapeamento proximo m))

/-- An open sqlite3 connection: the durable on-disk state and the working state
    of the implicit transaction. -/
structure Conexao where
  disco : BancoDados
  transacao : BancoDados
deriving DecidableEq

/-- cursor.execute of one DML statement: mutates only the working state. -/
def executarEfeito (c : Conexao) (f : BancoDados → BancoDados) : Conexao :=
  { c with transacao := f c.transacao }

/-- conn.commit(): the working state becomes durable. -/
def confirmar (c : Conexao) : Conexao := { c with disco := c.transacao }

/-- conn.rollback(): the working state is discarded. -/
def reverter (c : Conexao) : Conexao := { c with transacao := c.disco }

/-- salvar_template (src/database.py lines 102-178): criar_tabelas (committed on
    its own connection), open a connection, SELECT the existing template, run the
    branch's DML statements, commit, return the template id. -/
def salvar_template (doc_hash : String) (maps : List Mapeamento)
    (nome descricao : Option String) (db : BancoDados) :
    Except String (Nat × BancoDados) := do
  let db1 := criar_tabelas db
  let existente ← selecionarTemplate db1 doc_hash
  let (tid, efs) := planoSalvar doc_hash maps nome descricao db1.proximo_id existente
  pure (tid, (confirmar (efs.foldl executarEfeito { disco := db1, transacao := db1 })).disco)

/-- The total success-path result of salvar_template: the reported template id
    and the state the commit makes durable (the statement plan applied in
    order).  salvar_template is proved equal to .ok of this below. -/
def salvarDireto (doc_hash : String) (maps : List Mapeamento)
    (nome descricao : Option String) (db : BancoDados) : Nat × BancoDados :=
  let db1 := criar_tabelas db
  let (tid, efs) := planoSalvar doc_hash maps nome descricao db1.proximo_id
    (db1.templates.find? (fun t => t.hash == doc_hash))
  (tid, efs.foldl (fun s f => f s) db1)

/-- salvar_template when an exception strikes after k of the DML statements have
    executed and before conn.commit(): the except branch (lines 173-175) calls
    conn.rollback() and re-raises, so the durable state is whatever criar_tabelas
    left on disk. -/
def salvarComFalha (doc_hash : String) (maps : List Mapeamento)
    (nome descricao : Option String) (db : BancoDados) (k : Nat) : BancoDados :=
  let db1 := criar_tabelas db
  let (_, efs) := planoSalvar doc_hash maps nome descricao db1.proximo_id
    (db1.templates.find? (fun t => t.hash == doc_hash))
  (reverter ((efs.take k).foldl executarEfeito { disco := db1, transacao := db1 })).disco

/-- carregar_template (src/database.py lines 181-227): criar_tabelas, SELECT the
    template by hash (none gives None), then SELECT its mapeamentos rows in rowid
    order and rebuild the dicts. -/
def carregar_template (doc_hash : String) (db : BancoDados) :
    Except String (Option (List Mapeamento)) := do
  let db1 := criar_tabelas db
  let existente ← selecionarTemplate db1 doc_hash
  match existente with
  | none => pure none
  | some t =>
    pure (some ((db1.mapeamentos.filter (fun m => m.template_id == t.id)).map mapDeLinha))

/-- deletar_template (src/database.py lines 266-285).  Two facts of the source
    are load-bearing: (1) unlike every other store operation it does NOT call
    criar_tabelas first, so on a store whose tables were never created the
    DELETE raises sqlite3.OperationalError ("no such table: templates");
    (2) although the schema declares FOREIGN KEY ... ON DELETE CASCADE, sqlite3
    leaves foreign-key enforcement OFF for every connection unless
    PRAGMA foreign_keys = ON is executed, and this repository never executes it,
    so deleting a template does not touch its mapeamentos rows.  The returned
    Bool is cursor.rowcount > 0. -/
def deletar_template (doc_hash : String) (db : BancoDados) :
    Except String (Bool × BancoDados) :=
  if db.tabelas_criadas then
    let restantes := db.templates.filter (fun t => t.hash != doc_hash)
    .ok (restantes.length < db.templates.length, { db with templates := restantes })
  else .error "no such table: templates"

/-- template_existe (src/database.py lines 288-299): criar_tabelas, then
    SELECT 1 ... fetchone() is not None. -/
def template_existe (doc_hash : String) (db : BancoDados) :
    Except String (Bool × BancoDados) := do
  let db1 := criar_tabelas db
  let existente ← selecionarTemplate db1 doc_hash
  pure (existente.isSome, db1)

/-- SELECT COUNT(*) FROM templates, table-guarded like every statement. -/
def contarLinhas (db : BancoDados) : Except String Nat :=
  if db.tabelas_criadas then .ok db.templates.length
  else .error "no such table: templates"

/-- contar_templates (src/database.py lines 302-313): criar_tabelas, then
    SELECT COUNT(*). -/
def contar_templates (db : BancoDados) : Except String (Nat × BancoDados) := do
  let db1 := criar_tabelas db
  let n ← contarLinhas db1
  pure (n, db1)

/-- LIMIAR_SIMILARIDADE (src/database.py line 321). -/
def LIMIAR_SIMILARIDADE : ℚ := 3 / 4

/-- The ChromaDB collection as buscar_template_similar consumes it: a nearest-
    neighbour query over the normalized text, returning an error (caught by the
    function's except branch), no hit, or the nearest hit's distance together
    with the hash stored in its metadata. -/
structure ColecaoChroma where
  consulta : String → Except String (Option (ℚ × String))

/-- buscar_template_similar (src/database.py lines 416-469): absent collection
    (ChromaDB unavailable) gives None; the distance is converted to
    similaridade = 1 / (1 + distancia); any similarity below the threshold
    (the argument, defaulting to LIMIAR_SIMILARIDADE when None) gives None; the
    matched template's mappings are loaded from SQLite, any error inside the try
    block being caught and turned into None. -/
def buscar_template_similar (colecao : Option ColecaoChroma) (db : BancoDados)
    (texto_documento : String) (limiar : Option ℚ) :
    Option (String × ℚ × List Mapeamento) :=
  match colecao with
  | none => none
  | some col =>
    let lim := limiar.getD LIMIAR_SIMILARIDADE
    match col.consulta (normalizar_texto_para_embedding texto_documento) with
    | .error _ => none
    | .ok none => none
    | .ok (some (distancia, hashEncontrado)) =>
      let similaridade := 1 / (1 + distancia)
      if similaridade < lim then none
      else
        match carregar_template hashEncontrado db with
        | .error _ => none
        | .ok none => none
        | .ok (some maps) => some (hashEncontrado, similaridade, maps)

/-- Well-formedness the store maintains: every row id sits below the
    AUTOINCREMENT counter, so a fresh INSERT can never collide with an existing
    template row or with mapeamentos rows (orphaned ones included, since sqlite
    AUTOINCREMENT never reuses ids). -/
def BemFormado (db : BancoDados) : Prop :=
  (∀ t ∈ db.templates, t.id < db.proximo_id) ∧
  (∀ m ∈ db.mapeamentos, m.template_id < db.proximo_id)

/- Concrete inputs used by counterexamples and witnesses. -/

/-- A word list where the token sequence "A" "B" fails to extend at the first
    anchor (index 0, followed by "X") and succeeds at the second (index 2). -/
def exPalavras : List Palavra :=
  [ { text := "A", x0 := 0, top := 0, x1 := 10, bottom := 10 },
    { text := "X", x0 := 10, top := 0, x1 := 20, bottom := 10 },
    { text := "A", x0 := 30, top := 0, x1 := 40, bottom := 10 },
    { text := "B", x0 := 40, top := 0, x1 := 50, bottom := 10 } ]

/-- The two-token candidate "A B". -/
def exVariavelAB : Variavel :=
  { valor_original := "A B", tipo := "CAMPO_AB", descricao := "Campo AB" }

/-- A word whose bounding box has zero width (x0 = x1). -/
def exPalavraDegenerada : Palavra :=
  { text := "Z", x0 := 5, top := 10, x1 := 5, bottom := 20 }

/-- A single-token candidate matching the degenerate word exactly. -/
def exVariavelZ : Variavel :=
  { valor_original := "Z", tipo := "CAMPO_Z", descricao := "Campo Z" }

/-- The mapping the matcher emits for exVariavelZ over [exPalavraDegenerada]. -/
def exMapZ : Mapeamento :=
  { tipo := "CAMPO_Z", descricao := "Campo Z", texto_original := "Z",
    x0 := 5, top := 10, x1 := 5, bottom := 20 }

/-- A sample stored mapping. -/
def exMap1 : Mapeamento :=
  { tipo := "NOME", descricao := "Nome", texto_original := "Joao",
    x0 := 10, top := 20, x1 := 50, bottom := 30 }

/-- A second sample stored mapping. -/
def exMap2 : Mapeamento :=
  { tipo := "DATA_DOC", descricao := "Data", texto_original := "01/01/2025",
    x0 := 100, top := 20, x1 := 150, bottom := 30 }

/-- The store after saving exMap1 under hash "h1" into a fresh store. -/
def exBanco1 : BancoDados :=
  match salvar_template "h1" [exMap1] none none BancoDados.vazio with
  | .ok (_, db) => db
  | .error _ => BancoDados.vazio

/-- A collection whose nearest neighbour for any query is "h1" at distance 1/4,
    giving similarity 1 / (1 + 1/4) = 4/5. -/
def exColecao : ColecaoChroma :=
  { consulta := fun _ => .ok (some (1 / 4, "h1")) }

/-- The store after saving the zero-width mapping exMapZ under hash "hz". -/
def exBancoZ : BancoDados :=
  match salvar_template "hz" [exMapZ] none none BancoDados.vazio with
  | .ok (_, db) => db
  | .error _ => BancoDados.vazio

/-- A word with a proper-area box. -/
def exPalavraW : Palavra :=
  { text := "W", x0 := 0, top := 0, x1 := 10, bottom := 10 }

/-- A single-token candidate matching exPalavraW exactly. -/
def exVariavelW : Variavel :=
  { valor_original := "W", tipo := "CAMPO_W", descricao := "Campo W" }

/-- The mapping emitted for exVariavelW over [exPalavraW]. -/
def exMapW : Mapeamento :=
  { tipo := "CAMPO_W", descricao := "Campo W", texto_original := "W",
    x0 := 0, top := 0, x1 := 10, bottom := 10 }

/-- The store after deletar_template "h1" on exBanco1. -/
def exBancoDeletado : BancoDados :=
  match deletar_template "h1" exBanco1 with
  | .ok (_, db) => db
  | .error _ => BancoDados.vazio

/-- Fresh store after save("h1", [exMap1], "n", "d"). -/
def exBancoM1 : BancoDados :=
  match salvar_template "h1" [exMap1] (some "n") (some "d") BancoDados.vazio with
  | .ok (_, db) => db
  | .error _ => BancoDados.vazio

/-- exBancoM1 after save("h1", [exMap2], null, null). -/
def exBancoM2 : BancoDados :=
  match salvar_template "h1" [exMap2] none none exBancoM1 with
  | .ok (_, db) => db
  | .error _ => BancoDados.vazio

/-- Fresh store after save("h8", []). -/
def exBanco8 : BancoDados :=
  match salvar_template "h8" [] none none BancoDados.vazio with
  | .ok (_, db) => db
  | .error _ => BancoDados.vazio

/- ======================================================================
   Theorems
   ====================================================================== -/

theorem foldl_atualizaCaixa_top (l : List Palavra) : ∀ (c : Coords),
    (l.foldl atualizaCaixa c).top = c.top := by
  induction l with
  | nil => intro c; rfl
  | cons p l ih => intro c; simpa [atualizaCaixa] using ih (atualizaCaixa c p)

theorem foldl_atualizaCaixa_bottom (l : List Palavra) : ∀ (c : Coords),
    c.bottom ≤ (l.foldl atualizaCaixa c).bottom := by
  induction l with
  | nil => intro c; simp
  | cons p l ih =>
    intro c
    calc c.bottom ≤ (atualizaCaixa c p).bottom := by simp [atualizaCaixa]
    _ ≤ _ := ih (atualizaCaixa c p)

theorem estender_casa (ts : List String) : ∀ (ws : List Palavra) (c : Coords),
    estender ws ts c =
      if textosCasam ws ts then some ((ws.take ts.length).foldl atualizaCaixa c)
      else none := by
  induction ts with
  | nil => intro ws c; cases ws <;> simp [estender, textosCasam]
  | cons t ts ih =>
    intro ws c
    cases ws with
    | nil => simp [estender, textosCasam]
    | cons w ws =>
      simp only [estender, textosCasam, List.take, List.foldl]
      by_cases h : w.text = t
      · simp [h, ih]
      · simp [h]

theorem procurarExato_eq (t0 : String) (resto : List String) : ∀ (palavras : List Palavra),
    procurarExato t0 resto palavras =
      (primeiroCasamento (t0 :: resto) palavras).bind
        (fun i => caixaDe (palavras.drop i) (t0 :: resto)) := by
  intro palavras
  induction palavras with
  | nil => simp [procurarExato, primeiroCasamento]
  | cons w ws ih =>
    simp only [procurarExato, primeiroCasamento, estender_casa]
    by_cases h : w.text = t0
    · by_cases hc : textosCasam ws resto
      · simp [h, hc, textosCasam, caixaDe]
      · simp [h, hc, textosCasam, ih, Option.bind_map]
    · simp [h, textosCasam, ih, Option.bind_map]

theorem primeiroCasamento_caracteriza (busca : List String) :
    ∀ (palavras : List Palavra) (i : Nat),
      primeiroCasamento busca palavras = some i →
        textosCasam (palavras.drop i) busca = true ∧
        ∀ k, k < i → textosCasam (palavras.drop k) busca = false := by
  intro palavras
  induction palavras with
  | nil => intro i h; simp [primeiroCasamento] at h
  | cons w ws ih =>
    intro i h
    simp only [primeiroCasamento] at h
    by_cases hc : textosCasam (w :: ws) busca
    · simp [hc] at h
      subst h
      exact ⟨hc, fun k hk => absurd hk (Nat.not_lt_zero k)⟩
    · simp [hc] at h
      obtain ⟨j, hj, rfl⟩ := h
      obtain ⟨h1, h2⟩ := ih j hj
      refine ⟨h1, ?_⟩
      intro k hk
      cases k with
      | zero => simpa using hc
      | succ k => exact h2 k (Nat.lt_of_succ_lt_succ hk)

theorem procurarExato_altura (t0 : String) (resto : List String) :
    ∀ (palavras : List Palavra) (c : Coords),
      (∀ p ∈ palavras, p.top < p.bottom) →
      procurarExato t0 resto palavras = some c →
      c.top < c.bottom := by
  intro palavras
  induction palavras with
  | nil => intro c _ h; simp [procurarExato] at h
  | cons w ws ih =>
    intro c hpos h
    simp only [procurarExato] at h
    by_cases ht : w.text = t0
    · simp only [ht, if_true] at h
      rcases he : estender ws resto { x0 := w.x0, top := w.top, x1 := w.x1, bottom := w.bottom }
        with _ | c0
      · rw [he] at h
        exact ih c (fun p hp => hpos p (List.mem_cons_of_mem _ hp)) h
      · rw [he] at h
        cases h
        rw [estender_casa] at he
        by_cases hc : textosCasam ws resto
        · simp only [hc, if_true, Option.some.injEq] at he
          subst he
          have h1 := foldl_atualizaCaixa_top (ws.take resto.length)
            { x0 := w.x0, top := w.top, x1 := w.x1, bottom := w.bottom }
          have h2 := foldl_atualizaCaixa_bottom (ws.take resto.length)
            { x0 := w.x0, top := w.top, x1 := w.x1, bottom := w.bottom }
          have hw := hpos w (List.mem_cons_self _ _)
          rw [h1]
          exact lt_of_lt_of_le hw h2
        · simp [hc] at he
    · simp only [ht, if_false] at h
      exact ih c (fun p hp => hpos p (List.mem_cons_of_mem _ hp)) h

theorem procurarExato_unico (t0 : String) :
    ∀ (palavras : List Palavra) (c : Coords),
      procurarExato t0 [] palavras = some c →
      ∃ p ∈ palavras, c = { x0 := p.x0, top := p.top, x1 := p.x1, bottom := p.bottom } := by
  intro palavras
  induction palavras with
  | nil => intro c h; simp [procurarExato] at h
  | cons w ws ih =>
    intro c h
    simp only [procurarExato, estender] at h
    by_cases ht : w.text = t0
    · simp only [ht, if_true, Option.some.injEq] at h
      exact ⟨w, List.mem_cons_self _ _, h.symm⟩
    · simp only [ht, if_false] at h
      obtain ⟨p, hp, hc⟩ := ih c h
      exact ⟨p, List.mem_cons_of_mem _ hp, hc⟩

theorem buscaParcial_mem (t0 : String) :
    ∀ (palavras : List Palavra) (c : Coords),
      buscaParcial t0 palavras = some c →
      ∃ p ∈ palavras, c = { x0 := p.x0, top := p.top, x1 := p.x1, bottom := p.bottom } := by
  intro palavras
  induction palavras with
  | nil => intro c h; simp [buscaParcial] at h
  | cons w ws ih =>
    intro c h
    simp only [buscaParcial] at h
    by_cases hs : (strContem t0 w.text || strContem w.text t0) = true
    · simp only [hs, if_true, Option.some.injEq] at h
      exact ⟨w, List.mem_cons_self _ _, h.symm⟩
    · simp only [hs, if_false] at h
      obtain ⟨p, hp, hc⟩ := ih c h
      exact ⟨p, List.mem_cons_of_mem _ hp, hc⟩

/-- C1 counterexample: for candidate "A B" over exPalavras the first index whose
    word equals the first token "A" is 0, the token-by-token extension fails
    there (textosCasam is false at index 0), yet the matcher does emit a
    FieldMapping — anchored at the LATER anchor, index 2 (x0 = 30, not 0).  This
    refutes both "anchored at the first index where words[i].text equals the
    first token" and "a multi-token candidate whose extension fails at that
    first anchor index yields no FieldMapping". -/
theorem C1_contraexemplo :
    mapear_variaveis_para_coordenadas [exVariavelAB] exPalavras =
      [{ tipo := "CAMPO_AB", descricao := "Campo AB", texto_original := "A B",
         x0 := 30, top := 0, x1 := 50, bottom := 10 }] ∧
    (exPalavras.head?).map Palavra.text = some "A" ∧
    textosCasam exPalavras ["A", "B"] = false := by
  refine ⟨by decide, rfl, by decide⟩

/-- C1 (amended): the exact-match search of the span matcher emits the box of
    the FIRST index at which the candidate's FULL token sequence matches the
    word texts (and nothing when no index matches): the emitted box is anchored
    at that least full-match index, so when the full sequence occurs twice the
    earlier occurrence's box is returned; an anchor where only the first token
    matches but the extension fails is skipped and LATER anchors are tried. -/
theorem C1_ancoragem_primeiro_casamento (palavras : List Palavra) (t0 : String)
    (resto : List String) :
    procurarExato t0 resto palavras =
      (primeiroCasamento (t0 :: resto) palavras).bind
        (fun i => caixaDe (palavras.drop i) (t0 :: resto)) ∧
    ∀ i, primeiroCasamento (t0 :: resto) palavras = some i →
      textosCasam (palavras.drop i) (t0 :: resto) = true ∧
      ∀ k, k < i → textosCasam (palavras.drop k) (t0 :: resto) = false := by
  exact ⟨procurarExato_eq t0 resto palavras,
    fun i h => primeiroCasamento_caracteriza (t0 :: resto) palavras i h⟩

/-- C1 witness: instantiating the amended theorem on exPalavras with tokens
    "A" "B": the least full-match index is 2, where the sequence matches, and it
    fails at index 0. -/
theorem C1_testemunha :
    textosCasam (exPalavras.drop 2) ["A", "B"] = true ∧
    textosCasam (exPalavras.drop 0) ["A", "B"] = false := by
  have h := (C1_ancoragem_primeiro_casamento exPalavras "A" ["B"]).2 2 (by decide)
  exact ⟨h.1, h.2 0 (by decide)⟩

/-- C2 (code bug, evaluated at the failing inputs): because
    normalizar_texto_para_embedding applies the digit-run rule FIRST, the later
    currency, date, CPF and phone rules never see a digit and never fire: a
    currency amount, a date, a CPF and a phone number are shredded into NUM
    placeholders and the similarity key contains no VALOR / DATA / CPF /
    TELEFONE placeholder at all, contradicting both the claim and the
    function's own comments ("Remove valores monetarios", "Remove datas",
    "Remove CPF/CNPJ", "Remove telefones"). -/
theorem C2_avaliacao_falha :
    normalizar_texto_para_embedding "Total: R$ 1.500,00" = "total: r$ num . num , num" ∧
    strContem "valor" (normalizar_texto_para_embedding "Total: R$ 1.500,00") = false ∧
    normalizar_texto_para_embedding "Emitido em 15/03/1990" = "emitido em num / num / num" ∧
    strContem "data" (normalizar_texto_para_embedding "Emitido em 15/03/1990") = false ∧
    normalizar_texto_para_embedding "Doc: 123.456.789-00" = "doc: num . num . num - num" ∧
    strContem "cpf" (normalizar_texto_para_embedding "Doc: 123.456.789-00") = false ∧
    normalizar_texto_para_embedding "Tel: (11) 99999-9999" = "tel: ( num ) num - num" ∧
    strContem "telefone" (normalizar_texto_para_embedding "Tel: (11) 99999-9999") = false := by
  refine ⟨by decide, by decide, by decide, by decide, by decide, by decide, by decide, by decide⟩

/-- C5 counterexample: the span matcher copies word boxes without any area
    check: the zero-width word exPalavraDegenerada (x0 = x1 = 5) is matched and
    emitted as a FieldMapping with right = left, and salvar_template persists it
    verbatim (carregar_template returns it back), refuting "right > left ...
    dropped before being emitted or stored". -/
theorem C5_contraexemplo :
    mapear_variaveis_para_coordenadas [exVariavelZ] [exPalavraDegenerada] = [exMapZ] ∧
    exMapZ.x1 = exMapZ.x0 ∧
    carregar_template "hz" exBancoZ = .ok (some [exMapZ]) := by
  refine ⟨by decide, by decide, rfl⟩

/-- C5 (amended): the matcher performs no positive-area check — boxes are
    inherited from the matched words.  Provided every input word box satisfies
    bottom > top and right > left, every emitted mapping satisfies
    bottom > top (its top is the anchor word's top and its bottom at least the
    anchor word's bottom), and a single-token candidate's mapping, being a
    single word's box, also satisfies right > left; zero-area word boxes
    propagate into emitted and persisted mappings (see the counterexample). -/
theorem C5_caixas (palavras : List Palavra) (v : Variavel) (m : Mapeamento)
    (hpos : ∀ p ∈ palavras, p.top < p.bottom ∧ p.x0 < p.x1)
    (hm : mapearVariavel palavras v = some m) :
    m.top < m.bottom ∧ ((splitPython v.valor_original).length = 1 → m.x0 < m.x1) := by
  unfold mapearVariavel at hm
  split at hm
  · exact Option.noConfusion hm
  · rename_i t0 resto hsplit
    rw [hsplit]
    simp only at hm
    rcases hex : procurarExato t0 resto palavras with _ | c
    · rw [hex] at hm
      by_cases hresto : resto = []
      · subst hresto
        simp only [if_true] at hm
        rcases hbp : buscaParcial t0 palavras with _ | c
        · rw [hbp] at hm
          exact Option.noConfusion hm
        · rw [hbp] at hm
          simp only [Option.map_some'] at hm
          obtain ⟨p, hp, rfl⟩ := buscaParcial_mem t0 palavras c hbp
          cases hm
          exact ⟨(hpos p hp).1, fun _ => (hpos p hp).2⟩
      · rw [if_neg hresto] at hm
        exact Option.noConfusion hm
    · rw [hex] at hm
      simp only [Option.some.injEq] at hm
      subst hm
      constructor
      · exact procurarExato_altura t0 resto palavras c
          (fun p hp => (hpos p hp).1) hex
      · intro hlen
        simp only [List.length_cons] at hlen
        have hresto : resto = [] := List.eq_nil_of_length_eq_zero (Nat.succ_injective hlen)
        subst hresto
        obtain ⟨p, hp, rfl⟩ := procurarExato_unico t0 palavras c hex
        exact (hpos p hp).2

/-- C5 witness: the amended theorem applied to the proper-area word exPalavraW
    and the single-token candidate exVariavelW. -/
theorem C5_testemunha : exMapW.top < exMapW.bottom ∧ exMapW.x0 < exMapW.x1 :=
  ⟨(C5_caixas [exPalavraW] exVariavelW exMapW (by decide) (by decide)).1,
   (C5_caixas [exPalavraW] exVariavelW exMapW (by decide) (by decide)).2 (by decide)⟩

theorem removerDigitos_append (a b : List Char) :
    removerDigitos (a ++ b) = removerDigitos a ++ removerDigitos b := by
  simp [removerDigitos, List.filter_append]

theorem removerDigitos_so_digitos (v : List Char) (h : v.all ehDigito = true) :
    removerDigitos v = [] := by
  induction v with
  | nil => rfl
  | cons c cs ih =>
    simp only [List.all_cons, Bool.and_eq_true] at h
    simp only [removerDigitos, List.filter_cons]
    rw [h.1]
    simpa [removerDigitos] using ih h.2

theorem intercalar_digitos (ss : List (List Char)) : ∀ (vs : List (List Char)),
    (∀ v ∈ vs, v.all ehDigito = true) →
    removerDigitos (intercalar ss vs) = removerDigitos (intercalar ss []) := by
  induction ss with
  | nil =>
    intro vs h
    simp only [intercalar]
    induction vs with
    | nil => rfl
    | cons v vs ih =>
      simp only [List.flatten_cons, removerDigitos_append]
      rw [removerDigitos_so_digitos v (h v (List.mem_cons_self _ _))]
      simpa using ih (fun u hu => h u (List.mem_cons_of_mem _ hu))
  | cons s ss ih =>
    intro vs h
    cases vs with
    | nil => rfl
    | cons v vs =>
      simp only [intercalar, List.append_assoc, removerDigitos_append]
      rw [removerDigitos_so_digitos v (h v (List.mem_cons_self _ _)),
        ih vs (fun u hu => h u (List.mem_cons_of_mem _ hu))]
      simp

/-- C4 counterexample: "Total: R$ 100" and "Total: R$ 1.500,00" are the same
    skeleton with a single currency-amount slot — each slot matches the code's
    own currency pattern R\$\s*[\d.,]+ in full — yet their exact-fingerprint
    skeletons differ ("Total: R$ " versus "Total: "): the digit rule runs first
    and leaves "R$ " with nothing for the currency rule to consume when the
    amount has no '.' or ',' separator.  md5 therefore hashes distinct strings. -/
theorem C4_contraexemplo :
    intercalar ["Total: ".toList, []] ["R$ 100".toList] = "Total: R$ 100".toList ∧
    intercalar ["Total: ".toList, []] ["R$ 1.500,00".toList] = "Total: R$ 1.500,00".toList ∧
    casarMoeda "R$ 100".toList = some [] ∧
    casarMoeda "R$ 1.500,00".toList = some [] ∧
    esqueletoHash "Total: R$ 100" = "Total: R$ " ∧
    esqueletoHash "Total: R$ 1.500,00" = "Total: " := by
  refine ⟨by decide, by decide, by decide, by decide, by decide, by decide⟩

/-- C4 (amended): the exact fingerprint is insensitive to the contents of pure
    digit-run slots: two texts assembled from the same skeleton, with every
    variable slot made of digits only, have the same fingerprint skeleton (and
    hence the same md5 hash).  Insensitivity does NOT extend to arbitrary
    currency amounts: amounts whose digits carry no '.' or ',' separator leave a
    dangling "R$ " in the skeleton (see the counterexample). -/
theorem C4_insensibilidade_digitos (ss vs1 vs2 : List (List Char))
    (h1 : ∀ v ∈ vs1, v.all ehDigito = true) (h2 : ∀ v ∈ vs2, v.all ehDigito = true) :
    esqueletoHash ⟨intercalar ss vs1⟩ = esqueletoHash ⟨intercalar ss vs2⟩ := by
  show String.mk (reSubTudo casarMoeda [] (removerDigitos (intercalar ss vs1))) =
    String.mk (reSubTudo casarMoeda [] (removerDigitos (intercalar ss vs2)))
  rw [intercalar_digitos ss vs1 h1, intercalar_digitos ss vs2 h2]

/-- C4 witness: the amended theorem applied to the skeleton "Pedido _ fim" with
    digit slots "100" and "2". -/
theorem C4_testemunha :
    esqueletoHash ⟨intercalar ["Pedido ".toList, " fim".toList] ["100".toList]⟩ =
      esqueletoHash ⟨intercalar ["Pedido ".toList, " fim".toList] ["2".toList]⟩ :=
  C4_insensibilidade_digitos ["Pedido ".toList, " fim".toList]
    ["100".toList] ["2".toList] (by decide) (by decide)

theorem foldl_executarEfeito_disco (efs : List (BancoDados → BancoDados)) :
    ∀ (c : Conexao), (efs.foldl executarEfeito c).disco = c.disco := by
  induction efs with
  | nil => intro c; rfl
  | cons f efs ih => intro c; simpa [executarEfeito] using ih (executarEfeito c f)

theorem foldl_executarEfeito_transacao (efs : List (BancoDados → BancoDados)) :
    ∀ (c : Conexao), (efs.foldl executarEfeito c).transacao =
      efs.foldl (fun s f => f s) c.transacao := by
  induction efs with
  | nil => intro c; rfl
  | cons f efs ih => intro c; simpa [executarEfeito] using ih (executarEfeito c f)

theorem salvar_template_eq_direto (doc_hash : String) (maps : List Mapeamento)
    (nome descricao : Option String) (db : BancoDados) :
    salvar_template doc_hash maps nome descricao db =
      .ok (salvarDireto doc_hash maps nome descricao db) := by
  simp only [salvar_template, salvarDireto, selecionarTemplate, criar_tabelas, if_true,
    bind, Except.bind, pure, Except.pure, confirmar, foldl_executarEfeito_transacao]

theorem foldl_inserir (maps : List Mapeamento) : ∀ (db : BancoDados) (tid : Nat),
    (maps.map (fun m => inserirMapeamento tid m)).foldl (fun s f => f s) db =
      { db with mapeamentos := db.mapeamentos ++ maps.map (linhaDe tid) } := by
  induction maps with
  | nil => intro db tid; simp
  | cons m maps ih =>
    intro db tid
    simp only [List.map_cons, List.foldl_cons, ih, inserirMapeamento, List.map_cons,
      List.append_assoc, List.singleton_append]

theorem salvarDireto_existente (doc_hash : String) (maps : List Mapeamento)
    (nome descricao : Option String) (db : BancoDados) (t : TemplateRow)
    (hf : db.templates.find? (fun r => r.hash == doc_hash) = some t) :
    salvarDireto doc_hash maps nome descricao db =
      (t.id,
       { tabelas_criadas := true,
         templates := db.templates.map (linhaAtualizada t.id nome descricao maps.length),
         mapeamentos := (db.mapeamentos.filter (fun m => m.template_id != t.id)) ++
           maps.map (linhaDe t.id),
         proximo_id := db.proximo_id }) := by
  simp only [salvarDireto, criar_tabelas, hf, planoSalvar, List.foldl_cons, List.foldl_append,
    foldl_inserir, atualizarTemplate, removerMapeamentosDe, List.foldl_nil]

theorem salvarDireto_novo (doc_hash : String) (maps : List Mapeamento)
    (nome descricao : Option String) (db : BancoDados)
    (hf : db.templates.find? (fun r => r.hash == doc_hash) = none) :
    salvarDireto doc_hash maps nome descricao db =
      (db.proximo_id,
       { tabelas_criadas := true,
         templates := db.templates ++
           [{ id := db.proximo_id, hash := doc_hash, nome := nome, descricao := descricao,
              num_campos := maps.length }],
         mapeamentos := db.mapeamentos ++ maps.map (linhaDe db.proximo_id),
         proximo_id := db.proximo_id + 1 }) := by
  simp only [salvarDireto, criar_tabelas, hf, planoSalvar, List.foldl_cons, List.foldl_append,
    foldl_inserir, inserirTemplate, List.foldl_nil]

theorem linhaAtualizada_hash (tid : Nat) (nome descricao : Option String) (n : Nat)
    (t : TemplateRow) : (linhaAtualizada tid nome descricao n t).hash = t.hash := by
  unfold linhaAtualizada
  split <;> rfl

theorem linhaAtualizada_id (tid : Nat) (nome descricao : Option String) (n : Nat)
    (t : TemplateRow) : (linhaAtualizada tid nome descricao n t).id = t.id := by
  unfold linhaAtualizada
  split <;> rfl

theorem find?_map_linhaAtualizada (tid : Nat) (nome descricao : Option String) (n : Nat)
    (fp : String) : ∀ (l : List TemplateRow),
    (l.map (linhaAtualizada tid nome descricao n)).find? (fun r => r.hash == fp) =
      (l.find? (fun r => r.hash == fp)).map (linhaAtualizada tid nome descricao n) := by
  intro l
  induction l with
  | nil => rfl
  | cons t l ih =>
    simp only [List.map_cons, List.find?_cons, linhaAtualizada_hash]
    by_cases h : (t.hash == fp) = true
    · simp [h]
    · simp only [Bool.not_eq_true] at h
      simp [h, ih]

theorem filter_remocao (tid : Nat) (l : List MapRow) :
    (l.filter (fun m => m.template_id != tid)).filter (fun m => m.template_id == tid) = [] := by
  rw [List.filter_filter]
  apply List.filter_eq_nil_iff.mpr
  intro m _
  simp [bne]

theorem filter_linhaDe (tid : Nat) (maps : List Mapeamento) :
    (maps.map (linhaDe tid)).filter (fun m => m.template_id == tid) =
      maps.map (linhaDe tid) := by
  apply List.filter_eq_self.mpr
  intro m hm
  obtain ⟨m0, _, rfl⟩ := List.mem_map.mp hm
  simp [linhaDe]

theorem filter_abaixo (pid : Nat) (l : List MapRow) (h : ∀ m ∈ l, m.template_id < pid) :
    l.filter (fun m => m.template_id == pid) = [] := by
  apply List.filter_eq_nil_iff.mpr
  intro m hm
  simpa using Nat.ne_of_lt (h m hm)

theorem map_mapDeLinha (tid : Nat) (maps : List Mapeamento) :
    (maps.map (linhaDe tid)).map mapDeLinha = maps := by
  induction maps with
  | nil => rfl
  | cons m maps ih => simp only [List.map_cons, ih]; rfl

theorem carregar_salvarDireto (fp : String) (maps : List Mapeamento)
    (nome descricao : Option String) (db : BancoDados) (hwf : BemFormado db) :
    carregar_template fp (salvarDireto fp maps nome descricao db).2 = .ok (some maps) := by
  rcases hf : db.templates.find? (fun r => r.hash == fp) with _ | t
  · rw [salvarDireto_novo fp maps nome descricao db hf]
    simp only [carregar_template, criar_tabelas, selecionarTemplate, if_true, bind, Except.bind]
    rw [List.find?_append, hf]
    simp only [List.find?_cons, beq_self_eq_true, if_true, Option.none_or,
      List.find?_singleton, cond_true]
    simp only [List.filter_append, filter_linhaDe,
      filter_abaixo db.proximo_id db.mapeamentos hwf.2, List.nil_append, map_mapDeLinha,
      pure, Except.pure]
  · rw [salvarDireto_existente fp maps nome descricao db t hf]
    simp only [carregar_template, criar_tabelas, selecionarTemplate, if_true, bind, Except.bind]
    rw [find?_map_linhaAtualizada, hf]
    simp only [Option.map_some', linhaAtualizada_id]
    simp only [List.filter_append, filter_remocao, filter_linhaDe, List.nil_append,
      map_mapDeLinha, pure, Except.pure]

theorem bemFormado_vazio : BemFormado BancoDados.vazio := by
  constructor <;> intro x hx <;> simp [BancoDados.vazio] at hx

theorem bemFormado_salvarDireto (fp : String) (maps : List Mapeamento)
    (nome descricao : Option String) (db : BancoDados) (hwf : BemFormado db) :
    BemFormado (salvarDireto fp maps nome descricao db).2 := by
  rcases hf : db.templates.find? (fun r => r.hash == fp) with _ | t
  · rw [salvarDireto_novo fp maps nome descricao db hf]
    constructor
    · intro r hr
      rcases List.mem_append.mp hr with h | h
      · exact Nat.lt_succ_of_lt (hwf.1 r h)
      · simp only [List.mem_singleton] at h
        subst h
        exact Nat.lt_succ_self _
    · intro m hm
      rcases List.mem_append.mp hm with h | h
      · exact Nat.lt_succ_of_lt (hwf.2 m h)
      · obtain ⟨m0, _, rfl⟩ := List.mem_map.mp h
        exact Nat.lt_succ_self _
  · rw [salvarDireto_existente fp maps nome descricao db t hf]
    have htid : t.id < db.proximo_id := hwf.1 t (List.mem_of_find?_eq_some hf)
    constructor
    · intro r hr
      obtain ⟨r0, hr0, rfl⟩ := List.mem_map.mp hr
      rw [linhaAtualizada_id]
      exact hwf.1 r0 hr0
    · intro m hm
      rcases List.mem_append.mp hm with h | h
      · exact hwf.2 m (List.mem_of_mem_filter h)
      · obtain ⟨m0, _, rfl⟩ := List.mem_map.mp h
        exact htid

theorem find?_salvarDireto_existente (fp : String) (maps : List Mapeamento)
    (nome descricao : Option String) (db : BancoDados) (t : TemplateRow)
    (hf : db.templates.find? (fun r => r.hash == fp) = some t) :
    (salvarDireto fp maps nome descricao db).2.templates.find? (fun r => r.hash == fp) =
      some (linhaAtualizada t.id nome descricao maps.length t) := by
  rw [salvarDireto_existente fp maps nome descricao db t hf]
  simp only
  rw [find?_map_linhaAtualizada, hf]
  rfl

theorem find?_salvarDireto_novo (fp : String) (maps : List Mapeamento)
    (nome descricao : Option String) (db : BancoDados)
    (hf : db.templates.find? (fun r => r.hash == fp) = none) :
    (salvarDireto fp maps nome descricao db).2.templates.find? (fun r => r.hash == fp) =
      some { id := db.proximo_id, hash := fp, nome := nome, descricao := descricao,
             num_campos := maps.length } := by
  rw [salvarDireto_novo fp maps nome descricao db hf]
  simp only
  rw [List.find?_append, hf]
  simp [List.find?_singleton]

/-- C3: the cache upsert fully replaces the mapping set — save(fp, M1) then
    save(fp, M2) followed by load(fp) yields exactly M2, never a merge or a
    duplicate — and a second save passing null nome/descricao preserves the
    metadata stored by the first save (COALESCE semantics). -/
theorem C3_sobrescrita_coalesce (db : BancoDados) (fp : String)
    (m1 m2 : List Mapeamento) (n d : String) (tid1 tid2 : Nat) (db1 db2 : BancoDados)
    (hwf : BemFormado db)
    (h1 : salvar_template fp m1 (some n) (some d) db = .ok (tid1, db1))
    (h2 : salvar_template fp m2 none none db1 = .ok (tid2, db2)) :
    carregar_template fp db2 = .ok (some m2) ∧
    (db2.templates.find? (fun t => t.hash == fp)).map TemplateRow.nome = some (some n) ∧
    (db2.templates.find? (fun t => t.hash == fp)).map TemplateRow.descricao =
      some (some d) := by
  rw [salvar_template_eq_direto] at h1 h2
  injection h1 with h1
  injection h2 with h2
  have hdb1 : (salvarDireto fp m1 (some n) (some d) db).2 = db1 := congrArg Prod.snd h1
  have hdb2 : (salvarDireto fp m2 none none db1).2 = db2 := congrArg Prod.snd h2
  have hwf1 : BemFormado db1 := by
    rw [← hdb1]; exact bemFormado_salvarDireto fp m1 (some n) (some d) db hwf
  have hr1 : ∃ r1, db1.templates.find? (fun r => r.hash == fp) = some r1 ∧
      r1.nome = some n ∧ r1.descricao = some d := by
    rcases hf : db.templates.find? (fun r => r.hash == fp) with _ | t
    · have hfind := find?_salvarDireto_novo fp m1 (some n) (some d) db hf
      rw [hdb1] at hfind
      exact ⟨_, hfind, rfl, rfl⟩
    · refine ⟨linhaAtualizada t.id (some n) (some d) m1.length t, ?_, ?_, ?_⟩
      · rw [← hdb1]
        exact find?_salvarDireto_existente fp m1 (some n) (some d) db t hf
      · simp [linhaAtualizada, coalesce]
      · simp [linhaAtualizada, coalesce]
  obtain ⟨r1, hfind1, hn1, hd1⟩ := hr1
  have hfind2 : db2.templates.find? (fun r => r.hash == fp) =
      some (linhaAtualizada r1.id none none m2.length r1) := by
    rw [← hdb2]
    exact find?_salvarDireto_existente fp m2 none none db1 r1 hfind1
  refine ⟨?_, ?_, ?_⟩
  · rw [← hdb2]
    exact carregar_salvarDireto fp m2 none none db1 hwf1
  · rw [hfind2]
    simp [linhaAtualizada, coalesce, hn1]
  · rw [hfind2]
    simp [linhaAtualizada, coalesce, hd1]

/-- C3 witness: the theorem applied to a fresh store with
    save("h1", [exMap1], "n", "d") then save("h1", [exMap2], null, null). -/
theorem C3_testemunha :
    carregar_template "h1" exBancoM2 = .ok (some [exMap2]) ∧
    (exBancoM2.templates.find? (fun t => t.hash == "h1")).map TemplateRow.nome =
      some (some "n") ∧
    (exBancoM2.templates.find? (fun t => t.hash == "h1")).map TemplateRow.descricao =
      some (some "d") :=
  C3_sobrescrita_coalesce BancoDados.vazio "h1" [exMap1] [exMap2] "n" "d" 1 1
    exBancoM1 exBancoM2 bemFormado_vazio rfl rfl

/-- C7 (code bug, evaluated at the failing input): after save("h1", [exMap1]) on
    a fresh store, deletar_template "h1" reports true and removes the template
    row, but the child mapeamentos row survives as an orphan — the declared
    ON DELETE CASCADE never fires because no connection ever executes
    PRAGMA foreign_keys = ON, so the store ends with a mapping row whose
    template_id (1) references no existing template. -/
theorem C7_avaliacao_falha :
    deletar_template "h1" exBanco1 = .ok (true, exBancoDeletado) ∧
    exBancoDeletado.templates = [] ∧
    exBancoDeletado.mapeamentos = [linhaDe 1 exMap1] := by
  refine ⟨rfl, rfl, rfl⟩

/-- C9: atomicity of salvar_template — whatever prefix of its DML statement plan
    has executed when an exception strikes, the rollback in the except branch
    leaves the durable store exactly as criar_tabelas left it: templates,
    mapeamentos and the id counter are untouched by a failed save. -/
theorem C9_atomicidade (fp : String) (maps : List Mapeamento)
    (nome descricao : Option String) (db : BancoDados) (k : Nat) :
    salvarComFalha fp maps nome descricao db k = criar_tabelas db ∧
    (salvarComFalha fp maps nome descricao db k).templates = db.templates ∧
    (salvarComFalha fp maps nome descricao db k).mapeamentos = db.mapeamentos ∧
    (salvarComFalha fp maps nome descricao db k).proximo_id = db.proximo_id := by
  have h : salvarComFalha fp maps nome descricao db k = criar_tabelas db := by
    rcases hplano : planoSalvar fp maps nome descricao (criar_tabelas db).proximo_id
      ((criar_tabelas db).templates.find? (fun t => t.hash == fp)) with ⟨tid, efs⟩
    simp only [salvarComFalha, hplano, reverter, foldl_executarEfeito_disco]
  exact ⟨h, by rw [h]; rfl, by rw [h]; rfl, by rw [h]; rfl⟩

/-- C10: on a fresh store whose tables were never created, deletar_template is
    the one cache operation that raises ("no such table: templates"), because it
    alone skips criar_tabelas; salvar_template, carregar_template,
    template_existe and contar_templates all create the tables first and
    succeed. -/
theorem C10_assimetria_criacao (fp : String) (maps : List Mapeamento)
    (nome descricao : Option String) :
    deletar_template fp BancoDados.vazio = .error "no such table: templates" ∧
    (salvar_template fp maps nome descricao BancoDados.vazio).isOk = true ∧
    (carregar_template fp BancoDados.vazio).isOk = true ∧
    (template_existe fp BancoDados.vazio).isOk = true ∧
    (contar_templates BancoDados.vazio).isOk = true := by
  refine ⟨rfl, ?_, rfl, rfl, rfl⟩
  rw [salvar_template_eq_direto]
  rfl

/-- C6: buscar_template_similar never returns a hit whose similarity
    1 / (1 + distance) is below the threshold (the limiar argument, defaulting
    to LIMIAR_SIMILARIDADE = 0.75), and an unavailable ChromaDB backend yields
    None rather than an exception (backend errors inside the try block are also
    swallowed into None). -/
theorem C6_contrato_similaridade :
    (∀ (col : ColecaoChroma) (db : BancoDados) (texto : String) (limiar : Option ℚ)
        (fp : String) (s : ℚ) (maps : List Mapeamento),
        buscar_template_similar (some col) db texto limiar = some (fp, s, maps) →
        limiar.getD LIMIAR_SIMILARIDADE ≤ s) ∧
    (∀ (db : BancoDados) (texto : String) (limiar : Option ℚ),
        buscar_template_similar none db texto limiar = none) := by
  constructor
  · intro col db texto limiar fp s maps h
    simp only [buscar_template_similar] at h
    rcases hq : col.consulta (normalizar_texto_para_embedding texto) with e | r
    · rw [hq] at h
      exact Option.noConfusion h
    · rw [hq] at h
      rcases r with _ | ⟨dist, h0⟩
      · exact Option.noConfusion h
      · simp only at h
        by_cases hlt : 1 / (1 + dist) < limiar.getD LIMIAR_SIMILARIDADE
        · rw [if_pos hlt] at h
          exact Option.noConfusion h
        · rw [if_neg hlt] at h
          rcases hc : carregar_template h0 db with err | o
          · rw [hc] at h
            exact Option.noConfusion h
          · rw [hc] at h
            rcases o with _ | m
            · exact Option.noConfusion h
            · simp only [Option.some.injEq, Prod.mk.injEq] at h
              rw [← h.2.1]
              exact le_of_not_lt hlt
  · intro db texto limiar
    rfl

/-- C6 witness: the first part of the theorem applied to a backend answering
    distance 1/4 (similarity 1 / (1 + 1/4) = 4/5) over a store containing the
    hit: the returned similarity is at least the default threshold. -/
theorem C6_testemunha : LIMIAR_SIMILARIDADE ≤ 1 / (1 + 1 / 4 : ℚ) :=
  C6_contrato_similaridade.1 exColecao exBanco1 "doc" none "h1" (1 / (1 + 1 / 4 : ℚ))
    [exMap1] (by
      simp only [buscar_template_similar, exColecao]
      rw [if_neg (by norm_num [LIMIAR_SIMILARIDADE, Option.getD])]
      rfl)

/-- C8: an empty template round-trips — save(fp, []) then load(fp) returns
    Some [] rather than absent; load is absent on a store where fp was never
    saved (the fresh store) and after deletar_template removed fp, so a stored
    zero-mapping template is distinguishable from an unknown fingerprint. -/
theorem C8_template_vazio :
    (∀ (db : BancoDados) (fp : String) (tid : Nat) (db1 : BancoDados),
        BemFormado db → salvar_template fp [] none none db = .ok (tid, db1) →
        carregar_template fp db1 = .ok (some [])) ∧
    (∀ fp : String, carregar_template fp BancoDados.vazio = .ok none) ∧
    (∀ (db : BancoDados) (fp : String) (b : Bool) (db1 : BancoDados),
        deletar_template fp db = .ok (b, db1) →
        carregar_template fp db1 = .ok none) := by
  refine ⟨?_, ?_, ?_⟩
  · intro db fp tid db1 hwf h
    rw [salvar_template_eq_direto] at h
    injection h with h
    have hdb1 : (salvarDireto fp [] none none db).2 = db1 := congrArg Prod.snd h
    rw [← hdb1]
    exact carregar_salvarDireto fp [] none none db hwf
  · intro fp
    rfl
  · intro db fp b db1 h
    unfold deletar_template at h
    split at h
    · rename_i htab
      injection h with h
      have hdb1 : ({ db with templates :=
          db.templates.filter (fun t => t.hash != fp) } : BancoDados) = db1 :=
        congrArg Prod.snd h
      subst hdb1
      simp only [carregar_template, criar_tabelas, selecionarTemplate, if_true, bind,
        Except.bind]
      have hnone : (db.templates.filter (fun t => t.hash != fp)).find?
          (fun t => t.hash == fp) = none := by
        apply List.find?_eq_none.mpr
        intro t ht
        have := (List.mem_filter.mp ht).2
        simpa [bne] using this
      rw [hnone]
      rfl
    · exact Except.noConfusion h

/-- C8 witness: the three parts applied to concrete stores — save("h8", []) then
    load, load on the fresh store, and load after deletar_template. -/
theorem C8_testemunha :
    carregar_template "h8" exBanco8 = .ok (some []) ∧
    carregar_template "nunca" BancoDados.vazio = .ok none ∧
    carregar_template "h1" exBancoDeletado = .ok none :=
  ⟨C8_template_vazio.1 BancoDados.vazio "h8" 1 exBanco8 bemFormado_vazio rfl,
   C8_template_vazio.2.1 "nunca",
   C8_template_vazio.2.2 exBanco1 "h1" true exBancoDeletado rfl⟩
